import Mathlib

/-!
# Verification of `sprint_summary.py` (sprint_summary_cli)

A shallow embedding of the single-file Python program `src/sprint_summary.py`
and proofs about the properties claimed in its specification.

Modelling conventions:
* Instants (`datetime` values) are `Int` seconds; day 0 is 0001-01-01
  (proleptic Gregorian), so midnight of a calendar date is
  `86400 * civilOrdinal y m d`.  `datetime.now()` is an arbitrary `Int`
  parameter.  The library's year-range and `timedelta` overflow limits
  (years 1..9999) are not modelled; Python integers are unbounded `Nat`s.
* Strings are modelled at the ASCII level: `str.isdigit` is `'0'..'9'`,
  `str.strip` drops the ASCII whitespace characters from both ends.
* `datetime.strptime(s, "%Y-%m-%d")` is modelled after CPython's
  `_strptime` regex for that format: `%Y` is exactly four digits,
  `%m` is `1[0-2]|0[1-9]|[1-9]`, `%d` is `3[01]|[12]\d|0[1-9]|[1-9]`,
  the regex matches a prefix and any unconverted trailing data is an
  error, and the resulting numbers are then validated by the `datetime`
  constructor (calendar validity, year at least 1).
* The interactive retry loops read from a list of pending input lines;
  an exhausted list models a run that is still blocked on input
  (`none` result).
* HTTP calls are modelled by their outcome: a transport error carrying a
  message, or a response with a status code and an optionally-decodable
  JSON body.  `response.raise_for_status()` raises exactly for statuses
  400..599; `requests.exceptions.RequestException` (which the `except`
  clauses catch) covers transport errors, `HTTPError`, and JSON decode
  errors (as in requests >= 2.27).  JSON bodies are modelled as typed
  records whose optional `issues`/`items` fields are `none` when the key
  is absent, matching the `data.get(key, [])` lookups; per-item fields
  are assumed well-typed, as every claim under study is.
-/

namespace SprintSummary

/-! ## Characters and digit strings -/

/-- Numeric value of an ASCII digit character. -/
def digitVal (c : Char) : Nat := c.toNat - 48

/-- ASCII model of Python's `str.isdigit`: nonempty and all digits
(`sprint_summary.py` line 223, `date_input.isdigit()`). -/
def pyIsDigit (s : String) : Bool := !s.data.isEmpty && s.data.all Char.isDigit

/-- Model of `int()` applied to a digit string. -/
def strToNat (s : String) : Nat := s.data.foldl (fun a c => 10 * a + digitVal c) 0

/-- The characters removed by Python's `str.strip()` (ASCII whitespace). -/
def isPySpace (c : Char) : Bool :=
  c = ' ' ∨ c = '\t' ∨ c = '\n' ∨ c = '\r' ∨ c = '\x0b' ∨ c = '\x0c'

/-- Python's `str.strip()`: drop whitespace from both ends. -/
def pyStrip (s : String) : String :=
  String.mk (((s.data.dropWhile isPySpace).reverse.dropWhile isPySpace).reverse)

/-- Split a character list at every occurrence of `sep`, keeping empty
pieces, as Python's `str.split(sep)` does. -/
def splitOnChar (sep : Char) : List Char → List (List Char)
  | [] => [[]]
  | c :: rest =>
    if c = sep then [] :: splitOnChar sep rest
    else
      match splitOnChar sep rest with
      | [] => [[c]]
      | h :: t => (c :: h) :: t

/-- Python's `str.split(sep)` for a one-character separator. -/
def pySplit (sep : Char) (s : String) : List String :=
  (splitOnChar sep s.data).map String.mk

/-- Python's `lst[-1]`: the last element of a list (`""` on the empty
list, which `split` never returns). -/
def lastD : List String → String
  | [] => ""
  | [x] => x
  | _ :: x :: xs => lastD (x :: xs)

/-! ## Calendar arithmetic -/

/-- Gregorian leap-year rule, as used by Python's `datetime`. -/
def isLeapYear (y : Nat) : Bool := y % 4 == 0 && (y % 100 != 0 || y % 400 == 0)

/-- Length of a month in the proleptic Gregorian calendar. -/
def daysInMonth (y m : Nat) : Nat :=
  if m = 2 then (if isLeapYear y then 29 else 28)
  else if m = 4 ∨ m = 6 ∨ m = 9 ∨ m = 11 then 30
  else 31

/-- Validity check performed by the `datetime` constructor
(year at least `MINYEAR = 1`, month 1..12, day within the month). -/
def isValidDate (y m d : Nat) : Bool :=
  decide (1 ≤ y ∧ 1 ≤ m ∧ m ≤ 12 ∧ 1 ≤ d ∧ d ≤ daysInMonth y m)

/-- Days in the proleptic Gregorian calendar strictly before year `y`,
counting from 0001-01-01 as day 0. -/
def daysBeforeYear (y : Nat) : Nat :=
  365 * (y - 1) + (y - 1) / 4 + (y - 1) / 400 - (y - 1) / 100

/-- Days of year `y` strictly before month `m`. -/
def daysBeforeMonth (y m : Nat) : Nat :=
  (List.range (m - 1)).foldl (fun a i => a + daysInMonth y (i + 1)) 0

/-- Day number of a calendar date, with 0001-01-01 as day 0
(Python's `date.toordinal()` minus one). -/
def civilOrdinal (y m d : Nat) : Nat :=
  daysBeforeYear y + daysBeforeMonth y m + (d - 1)

/-- The instant at midnight of a calendar date (seconds since day 0). -/
def midnightInstant (y m d : Nat) : Int := 86400 * (civilOrdinal y m d : Int)

/-- Inverse of `civilOrdinal`, total on `Int` days (civil-from-days
algorithm); used to model `strftime("%Y-%m-%d")`. -/
def civilFromDays (z : Int) : Int × Int × Int :=
  let days := z + 306
  let era := days.ediv 146097
  let doe := (days - era * 146097).toNat
  let yoe := (doe - doe / 1460 + doe / 36524 - doe / 146096) / 365
  let doy := doe - (365 * yoe + yoe / 4 - yoe / 100)
  let mp := (5 * doy + 2) / 153
  let d := doy - (153 * mp + 2) / 5 + 1
  let m := if mp < 10 then mp + 3 else mp - 9
  let y : Int := (yoe : Int) + era * 400 + (if m ≤ 2 then 1 else 0)
  (y, (m : Int), (d : Int))

/-- Left-pad a string with zeros to width `w`. -/
def zfill (w : Nat) (s : String) : String :=
  String.mk (List.replicate (w - s.length) '0') ++ s

/-- Model of `datetime.strftime("%Y-%m-%d")` on an instant. -/
def fmtDate (t : Int) : String :=
  let c := civilFromDays (t.ediv 86400)
  zfill 4 (toString c.1) ++ "-" ++ zfill 2 (toString c.2.1) ++ "-" ++ zfill 2 (toString c.2.2)

/-! ## `strptime("%Y-%m-%d")` -/

/-- `%Y` of CPython's `_strptime`: exactly four digits. -/
def takeYear : List Char → Option (Nat × List Char)
  | c1 :: c2 :: c3 :: c4 :: rest =>
    if c1.isDigit ∧ c2.isDigit ∧ c3.isDigit ∧ c4.isDigit then
      some (digitVal c1 * 1000 + digitVal c2 * 100 + digitVal c3 * 10 + digitVal c4, rest)
    else none
  | _ => none

/-- `%m` of CPython's `_strptime`: regex `1[0-2]|0[1-9]|[1-9]`, alternatives
tried in order.  (Committing to a two-character match is equivalent to the
regex's backtracking here: the one-character fallback would need a `'-'`
next, but the rejected second character is a digit.) -/
def takeMonth : List Char → Option (Nat × List Char)
  | c1 :: c2 :: rest =>
    if c1 = '1' ∧ '0' ≤ c2 ∧ c2 ≤ '2' then some (10 + digitVal c2, rest)
    else if c1 = '0' ∧ '1' ≤ c2 ∧ c2 ≤ '9' then some (digitVal c2, rest)
    else if '1' ≤ c1 ∧ c1 ≤ '9' then some (digitVal c1, c2 :: rest)
    else none
  | [c1] => if '1' ≤ c1 ∧ c1 ≤ '9' then some (digitVal c1, []) else none
  | [] => none

/-- `%d` of CPython's `_strptime`: regex `3[01]|[12]\d|0[1-9]|[1-9]`,
alternatives tried in order. -/
def takeDay : List Char → Option (Nat × List Char)
  | c1 :: c2 :: rest =>
    if c1 = '3' ∧ '0' ≤ c2 ∧ c2 ≤ '1' then some (30 + digitVal c2, rest)
    else if ('1' ≤ c1 ∧ c1 ≤ '2') ∧ c2.isDigit then some (digitVal c1 * 10 + digitVal c2, rest)
    else if c1 = '0' ∧ '1' ≤ c2 ∧ c2 ≤ '9' then some (digitVal c2, rest)
    else if '1' ≤ c1 ∧ c1 ≤ '9' then some (digitVal c1, c2 :: rest)
    else none
  | [c1] => if '1' ≤ c1 ∧ c1 ≤ '9' then some (digitVal c1, []) else none
  | [] => none

/-- Consume the literal `'-'` of the format string. -/
def expectDash : List Char → Option (List Char)
  | '-' :: rest => some rest
  | _ => none

/-- The regex phase of `strptime(s, "%Y-%m-%d")`: any trailing characters
after the match are "unconverted data", an error. -/
def parseYMDChars (cs : List Char) : Option (Nat × Nat × Nat) :=
  (takeYear cs).bind fun yc =>
    (expectDash yc.2).bind fun r2 =>
      (takeMonth r2).bind fun mc =>
        (expectDash mc.2).bind fun r4 =>
          (takeDay r4).bind fun dc =>
            if dc.2 = [] then some (yc.1, mc.1, dc.1) else none

/-- `datetime.strptime(s, "%Y-%m-%d")`: regex match followed by the
`datetime` constructor's calendar validation. -/
def parsePythonDate (s : String) : Option (Nat × Nat × Nat) :=
  match parseYMDChars s.data with
  | some (y, m, d) => if isValidDate y m d then some (y, m, d) else none
  | none => none

/-! ## Spec-side shape of a `YYYY-MM-DD` string -/

/-- Zero-padded four-digit character rendering of a number (its last four
decimal digits). -/
def pad4Chars (n : Nat) : List Char :=
  [Nat.digitChar (n / 1000 % 10), Nat.digitChar (n / 100 % 10),
   Nat.digitChar (n / 10 % 10), Nat.digitChar (n % 10)]

/-- Zero-padded two-digit character rendering of a number. -/
def pad2Chars (n : Nat) : List Char :=
  [Nat.digitChar (n / 10 % 10), Nat.digitChar (n % 10)]

/-- The characters of the canonical `YYYY-MM-DD` rendering of a date. -/
def ymdChars (y m d : Nat) : List Char :=
  pad4Chars y ++ ('-' :: (pad2Chars m ++ ('-' :: pad2Chars d)))

/-- The canonical `YYYY-MM-DD` rendering of a date: the spec's notion of
"a string matching YYYY-MM-DD". -/
def ymdString (y m d : Nat) : String := String.mk (ymdChars y m d)

/-- Modelled from the spec: the shape "string matching `YYYY-MM-DD`"
(four digits, dash, two digits, dash, two digits), used to compare the
spec's wording with the code's lenient parser. -/
def specYMDShape (s : String) : Bool :=
  match s.data with
  | [a, b, c, e, f, g, h, i, j, k] =>
    a.isDigit && b.isDigit && c.isDigit && e.isDigit && f == '-' &&
    g.isDigit && h.isDigit && i == '-' && j.isDigit && k.isDigit
  | _ => false

/-! ## The two interactive prompts (`get_start_date`, `get_end_date`) -/

/-- One iteration of the `get_start_date` loop body on a line of input
(after `input(...)`): strip, then the digits branch (`N` days back), then
`strptime`; `none` means the loop re-prompts. -/
def parseStartInput (now : Int) (raw : String) : Option Int :=
  if pyIsDigit (pyStrip raw) then some (now - 86400 * (strToNat (pyStrip raw) : Int))
  else
    match parsePythonDate (pyStrip raw) with
    | some (y, m, d) => some (midnightInstant y m d)
    | none => none

/-- One iteration of the `get_end_date` loop body: strip, empty input
defaults to `now`, otherwise `strptime`; `none` re-prompts. -/
def parseEndInput (now : Int) (raw : String) : Option Int :=
  if pyStrip raw = "" then some now
  else
    match parsePythonDate (pyStrip raw) with
    | some (y, m, d) => some (midnightInstant y m d)
    | none => none

/-- The `get_start_date` retry loop over the pending input lines; `none`
models a run still blocked waiting for more input. -/
def getStartDate (now : Int) : List String → Option Int
  | [] => none
  | s :: rest =>
    match parseStartInput now s with
    | some v => some v
    | none => getStartDate now rest

/-- The `get_end_date` retry loop over the pending input lines. -/
def getEndDate (now : Int) : List String → Option Int
  | [] => none
  | s :: rest =>
    match parseEndInput now s with
    | some v => some v
    | none => getEndDate now rest

/-! ## Configuration (`SprintSummary.__init__`, `validate_config`) -/

/-- The five environment variables read by the program; `none` models an
unset variable (`os.getenv` returning `None`). -/
structure Env where
  JIRA_URL : Option String
  JIRA_EMAIL : Option String
  JIRA_API_TOKEN : Option String
  GITHUB_TOKEN : Option String
  GITHUB_USERNAME : Option String
deriving DecidableEq

/-- Python's `str.rstrip('/')`. -/
def rstripSlash (s : String) : String :=
  String.mk ((s.data.reverse.dropWhile (fun c => c = '/')).reverse)

/-- The configuration held by a `SprintSummary` instance:
`jira_url = os.getenv('JIRA_URL', '').rstrip('/')`, the rest raw. -/
structure Config where
  jira_url : String
  jira_email : Option String
  jira_token : Option String
  github_token : Option String
  github_username : Option String
deriving DecidableEq

/-- The constructor's environment reads. -/
def mkConfig (e : Env) : Config :=
  { jira_url := rstripSlash (e.JIRA_URL.getD "")
    jira_email := e.JIRA_EMAIL
    jira_token := e.JIRA_API_TOKEN
    github_token := e.GITHUB_TOKEN
    github_username := e.GITHUB_USERNAME }

/-- Python truthiness test `not x` for an `Optional[str]`:
`None` and `""` are falsy. -/
def optFalsy : Option String → Bool
  | none => true
  | some s => s.isEmpty

/-- The `missing` list accumulated by `validate_config`, in source order. -/
def missingVars (c : Config) : List String :=
  (if c.jira_url.isEmpty then ["JIRA_URL"] else []) ++
  (if optFalsy c.jira_email then ["JIRA_EMAIL"] else []) ++
  (if optFalsy c.jira_token then ["JIRA_API_TOKEN"] else []) ++
  (if optFalsy c.github_token then ["GITHUB_TOKEN"] else []) ++
  (if optFalsy c.github_username then ["GITHUB_USERNAME"] else [])

/-- The lines `validate_config` prints before `sys.exit(1)`. -/
def missingReportLines (missing : List String) : List String :=
  ["❌ Missing required environment variables:"] ++
  missing.map (fun v => "   - " ++ v) ++
  ["", "Please set these variables and try again."]

/-! ## HTTP fetches -/

/-- Outcome of a `requests.get` call: a transport-level
`RequestException`, or a response with a status code and a body that
either decodes as JSON (`some`) or does not (`none`). -/
inductive HttpOutcome (α : Type) where
  | transportError (msg : String)
  | response (status : Nat) (body : Option α)
deriving DecidableEq

/-- Model of the text of the `HTTPError` that
`response.raise_for_status()` raises for a 4xx/5xx status. -/
def statusErrText (status : Nat) : String := toString status ++ " Error for url"

/-- Model of the text of a `requests` JSON decode error. -/
def jsonDecodeErrText : String := "Expecting value"

/-- Typed model of one element of the JIRA response's `issue['fields']['status']`. -/
structure JiraStatus where
  name : String
deriving DecidableEq

/-- Typed model of `issue['fields']`. -/
structure JiraFields where
  summary : String
  status : JiraStatus
deriving DecidableEq

/-- Typed model of one element of `data['issues']`. -/
structure JiraIssue where
  key : String
  fields : JiraFields
deriving DecidableEq

/-- Decoded JIRA search response body; `issues = none` models a JSON
object without the top-level `issues` key (`data.get('issues', [])`). -/
structure JiraBody where
  issues : Option (List JiraIssue)
deriving DecidableEq

/-- The ticket record built for each issue in `get_completed_jira_tickets`. -/
structure Ticket where
  key : String
  summary : String
  status : String
  url : String
deriving DecidableEq

/-- The dict appended per issue:
`{'key': ..., 'summary': ..., 'status': ..., 'url': jira_url + '/browse/' + key}`. -/
def ticketOfIssue (cfg : Config) (iss : JiraIssue) : Ticket :=
  { key := iss.key
    summary := iss.fields.summary
    status := iss.fields.status.name
    url := cfg.jira_url ++ "/browse/" ++ iss.key }

/-- `get_completed_jira_tickets`, as a function of the HTTP outcome:
returns the ticket list and the diagnostic lines it prints. -/
def fetchJira (cfg : Config) (resp : HttpOutcome JiraBody) : List Ticket × List String :=
  match resp with
  | .transportError e => ([], ["❌ Error fetching JIRA tickets: " ++ e])
  | .response status body =>
    if 400 ≤ status ∧ status ≤ 599 then
      ([], ["❌ Error fetching JIRA tickets: " ++ statusErrText status])
    else
      match body with
      | none => ([], ["❌ Error fetching JIRA tickets: " ++ jsonDecodeErrText])
      | some b => ((b.issues.getD []).map (ticketOfIssue cfg), [])

/-- Typed model of one element of the GitHub search response's `data['items']`. -/
structure GithubItem where
  number : Int
  title : String
  repository_url : String
  state : String
  html_url : String
  updated_at : String
deriving DecidableEq

/-- Decoded GitHub search response body; `items = none` models a JSON
object without the top-level `items` key (`data.get('items', [])`). -/
structure GithubBody where
  items : Option (List GithubItem)
deriving DecidableEq

/-- The PR record built for each item in `get_github_pr_reviews`. -/
structure PR where
  number : Int
  title : String
  repo : String
  state : String
  url : String
  updated : String
deriving DecidableEq

/-- The dict appended per item; `repo` is
`item['repository_url'].split('/')[-1]`. -/
def prOfItem (it : GithubItem) : PR :=
  { number := it.number
    title := it.title
    repo := lastD (pySplit '/' it.repository_url)
    state := it.state
    url := it.html_url
    updated := it.updated_at }

/-- `get_github_pr_reviews`, as a function of the HTTP outcome. -/
def fetchGithub (_cfg : Config) (resp : HttpOutcome GithubBody) : List PR × List String :=
  match resp with
  | .transportError e => ([], ["❌ Error fetching GitHub PR reviews: " ++ e])
  | .response status body =>
    if 400 ≤ status ∧ status ≤ 599 then
      ([], ["❌ Error fetching GitHub PR reviews: " ++ statusErrText status])
    else
      match body with
      | none => ([], ["❌ Error fetching GitHub PR reviews: " ++ jsonDecodeErrText])
      | some b => ((b.items.getD []).map prOfItem, [])

/-! ## Rendering (`print_summary`, `print_concise_summary`) -/

/-- `"=" * 60`. -/
def sep60 : String := String.mk (List.replicate 60 '=')

/-- `"-" * 60`. -/
def dash60 : String := String.mk (List.replicate 60 '-')

/-- The ticket block of `print_summary`: entries with a trailing count,
or the explicit empty-list line. -/
def jiraTicketLines (tickets : List Ticket) : List String :=
  if tickets.isEmpty then
    ["No completed tickets found in date range."]
  else
    (tickets.map (fun t => [t.key ++ ": " ++ t.summary, "   " ++ t.url, ""])).flatten ++
    ["Total: " ++ toString tickets.length ++ " ticket(s)"]

/-- The PR block of `print_summary`: a status glyph distinguishes
`closed` from any other state. -/
def prReviewLines (prs : List PR) : List String :=
  if prs.isEmpty then
    ["No PR reviews found in date range."]
  else
    (prs.map (fun p =>
      [(if p.state = "closed" then "✅" else "🔄") ++
         " [" ++ p.repo ++ "] #" ++ toString p.number ++ ": " ++ p.title,
       "   " ++ p.url, ""])).flatten ++
    ["Total: " ++ toString prs.length ++ " PR(s) reviewed"]

/-- `print_summary`: full-mode stdout lines.  Each fetch runs after its
section header is printed, so its diagnostic lines precede the entries. -/
def printSummary (cfg : Config) (startD endD : Int)
    (jr : HttpOutcome JiraBody) (gr : HttpOutcome GithubBody) : List String :=
  [sep60, "📊 SPRINT SUMMARY",
   "📅 Date Range: " ++ fmtDate startD ++ " to " ++ fmtDate endD,
   sep60, "", "✅ COMPLETED JIRA TICKETS", dash60] ++
  (fetchJira cfg jr).2 ++ jiraTicketLines (fetchJira cfg jr).1 ++
  ["", sep60, "", "👀 GITHUB PR REVIEWS", dash60] ++
  (fetchGithub cfg gr).2 ++ prReviewLines (fetchGithub cfg gr).1 ++
  ["", sep60]

/-- `print_concise_summary`: concise-mode stdout lines. -/
def printConcise (cfg : Config)
    (jr : HttpOutcome JiraBody) (gr : HttpOutcome GithubBody) : List String :=
  ["Completed JIRA Tickets:"] ++
  (fetchJira cfg jr).2 ++
  (if (fetchJira cfg jr).1.isEmpty then ["None"]
   else (fetchJira cfg jr).1.map (fun t => t.key ++ ": " ++ t.summary ++ " - " ++ t.url)) ++
  [""] ++
  ["GitHub PR Reviews:"] ++
  (fetchGithub cfg gr).2 ++
  (if (fetchGithub cfg gr).1.isEmpty then ["None"]
   else (fetchGithub cfg gr).1.map
     (fun p => p.repo ++ " #" ++ toString p.number ++ ": " ++ p.title ++ " - " ++ p.url))

/-! ## The program (`main`) -/

/-- Externally observable I/O actions, in program order. -/
inductive Event where
  | promptStart
  | promptEnd
  | validate
  | httpJira
  | httpGithub
deriving DecidableEq

/-- Everything a run of `main` consumes: the environment, the pending
stdin lines for each prompt, the wall clock, the two HTTP outcomes, and
the `--concise` flag. -/
structure RunInput where
  env : Env
  startInputs : List String
  endInputs : List String
  now : Int
  jiraResp : HttpOutcome JiraBody
  githubResp : HttpOutcome GithubBody
  concise : Bool

/-- Everything a run of `main` produces: the process exit code, the
stdout lines of `validate_config` and the renderer (prompt echo lines are
not modelled), and the ordered trace of I/O actions. -/
structure RunResult where
  exitCode : Nat
  lines : List String
  trace : List Event
deriving DecidableEq

/-- `main`: prompts for the two dates, constructs `SprintSummary` (which
validates the configuration and exits with code 1 if values are
missing), then renders in the selected mode; `none` models a run still
blocked on stdin. -/
def runMain (i : RunInput) : Option RunResult :=
  match getStartDate i.now i.startInputs with
  | none => none
  | some sd =>
    match getEndDate i.now i.endInputs with
    | none => none
    | some ed =>
      let cfg := mkConfig i.env
      let missing := missingVars cfg
      if missing.isEmpty then
        some { exitCode := 0
               lines := if i.concise then printConcise cfg i.jiraResp i.githubResp
                        else printSummary cfg sd ed i.jiraResp i.githubResp
               trace := [.promptStart, .promptEnd, .validate, .httpJira, .httpGithub] }
      else
        some { exitCode := 1
               lines := missingReportLines missing
               trace := [.promptStart, .promptEnd, .validate] }

/-! ## Concrete example runs used as witnesses -/

/-- An environment with all five variables set and non-empty. -/
def envAll : Env :=
  { JIRA_URL := some "https://jira.example.com/"
    JIRA_EMAIL := some "me@example.com"
    JIRA_API_TOKEN := some "jira-token"
    GITHUB_TOKEN := some "gh-token"
    GITHUB_USERNAME := some "octocat" }

/-- An environment with `JIRA_EMAIL` unset and `GITHUB_TOKEN` empty. -/
def envMissingTwo : Env :=
  { JIRA_URL := some "https://jira.example.com"
    JIRA_EMAIL := none
    JIRA_API_TOKEN := some "jira-token"
    GITHUB_TOKEN := some ""
    GITHUB_USERNAME := some "octocat" }

/-- A 200 response whose body has an empty `issues` array. -/
def emptyJiraResp : HttpOutcome JiraBody := .response 200 (some ⟨some []⟩)

/-- A 200 response whose body has an empty `items` array. -/
def emptyGithubResp : HttpOutcome GithubBody := .response 200 (some ⟨some []⟩)

/-- A complete run: valid configuration, one input line per prompt,
empty result sets, concise mode. -/
def runAllOk : RunInput :=
  { env := envAll
    startInputs := ["1"]
    endInputs := [""]
    now := 0
    jiraResp := emptyJiraResp
    githubResp := emptyGithubResp
    concise := true }

/-- The result of `runMain runAllOk`. -/
def allOkResult : RunResult :=
  { exitCode := 0
    lines := ["Completed JIRA Tickets:", "None", "", "GitHub PR Reviews:", "None"]
    trace := [.promptStart, .promptEnd, .validate, .httpJira, .httpGithub] }

/-- A run against `envMissingTwo`. -/
def runMissingTwo : RunInput :=
  { env := envMissingTwo
    startInputs := ["1"]
    endInputs := [""]
    now := 0
    jiraResp := emptyJiraResp
    githubResp := emptyGithubResp
    concise := false }

/-- The result of `runMain runMissingTwo`. -/
def missingTwoResult : RunResult :=
  { exitCode := 1
    lines := missingReportLines ["JIRA_EMAIL", "GITHUB_TOKEN"]
    trace := [.promptStart, .promptEnd, .validate] }

/-- A configuration value as constructed from `envAll`. -/
def cfgAll : Config := mkConfig envAll

/-- A sample JIRA issue. -/
def issueA : JiraIssue := { key := "PROJ-1", fields := { summary := "Fix login", status := { name := "Done" } } }

/-- A second sample JIRA issue. -/
def issueB : JiraIssue := { key := "PROJ-2", fields := { summary := "Add tests", status := { name := "Done" } } }

/-- A sample GitHub search item whose repository URL ends in `/myorg/myrepo`. -/
def itemA : GithubItem :=
  { number := 42
    title := "Improve CI"
    repository_url := "https://api.github.com/repos/myorg/myrepo"
    state := "closed"
    html_url := "https://github.com/myorg/myrepo/pull/42"
    updated_at := "2024-05-06T12:00:00Z" }

/-! ## Shared lemmas about the date parser -/

lemma digitChar_isDigit {k : Nat} (h : k < 10) : (Nat.digitChar k).isDigit = true := by
  interval_cases k <;> decide

lemma digitVal_digitChar {k : Nat} (h : k < 10) : digitVal (Nat.digitChar k) = k := by
  interval_cases k <;> decide

lemma takeYear_pad4 {y : Nat} (hy : y ≤ 9999) (rest : List Char) :
    takeYear (pad4Chars y ++ rest) = some (y, rest) := by
  have h1 : y / 1000 % 10 < 10 := Nat.mod_lt _ (by norm_num)
  have h2 : y / 100 % 10 < 10 := Nat.mod_lt _ (by norm_num)
  have h3 : y / 10 % 10 < 10 := Nat.mod_lt _ (by norm_num)
  have h4 : y % 10 < 10 := Nat.mod_lt _ (by norm_num)
  simp only [pad4Chars, List.cons_append, List.nil_append, takeYear,
    digitChar_isDigit h1, digitChar_isDigit h2, digitChar_isDigit h3, digitChar_isDigit h4,
    digitVal_digitChar h1, digitVal_digitChar h2, digitVal_digitChar h3, digitVal_digitChar h4]
  simp only [and_self, if_true, Option.some.injEq, Prod.mk.injEq]
  exact ⟨by omega, trivial⟩

lemma takeMonth_pad2 {m : Nat} (hm1 : 1 ≤ m) (hm2 : m ≤ 12) (rest : List Char) :
    takeMonth (pad2Chars m ++ rest) = some (m, rest) := by
  interval_cases m <;> rfl

lemma takeDay_pad2 {d : Nat} (hd1 : 1 ≤ d) (hd2 : d ≤ 31) (rest : List Char) :
    takeDay (pad2Chars d ++ rest) = some (d, rest) := by
  interval_cases d <;> rfl

lemma parseYMDChars_ymd {y m d : Nat} (hy : y ≤ 9999)
    (hm1 : 1 ≤ m) (hm2 : m ≤ 12) (hd1 : 1 ≤ d) (hd2 : d ≤ 31) :
    parseYMDChars (ymdChars y m d) = some (y, m, d) := by
  unfold ymdChars parseYMDChars
  rw [takeYear_pad4 hy]
  simp only [Option.some_bind, expectDash]
  rw [takeMonth_pad2 hm1 hm2]
  simp only [Option.some_bind, expectDash]
  rw [show pad2Chars d = pad2Chars d ++ [] from (List.append_nil _).symm,
    takeDay_pad2 hd1 hd2]
  simp

lemma daysInMonth_le (y m : Nat) : daysInMonth y m ≤ 31 := by
  unfold daysInMonth
  split_ifs <;> omega

lemma isValidDate_bounds {y m d : Nat} (h : isValidDate y m d = true) :
    1 ≤ y ∧ 1 ≤ m ∧ m ≤ 12 ∧ 1 ≤ d ∧ d ≤ 31 := by
  have hb := daysInMonth_le y m
  simp only [isValidDate, decide_eq_true_eq] at h
  omega

lemma pyIsDigit_ymdString (y m d : Nat) : pyIsDigit (ymdString y m d) = false := by
  simp only [pyIsDigit, ymdString, ymdChars, pad4Chars, pad2Chars]
  simp [List.all_append]

lemma parsePythonDate_ymdString {y m d : Nat} (hy : y ≤ 9999)
    (hv : isValidDate y m d = true) :
    parsePythonDate (ymdString y m d) = some (y, m, d) := by
  obtain ⟨h1, h2, h3, h4, h5⟩ := isValidDate_bounds hv
  unfold parsePythonDate
  rw [show (ymdString y m d).data = ymdChars y m d from rfl,
    parseYMDChars_ymd hy h2 h3 h4 h5]
  simp [hv]

/-- C3: a digit-only start-date input resolves to now minus that many
days; a `YYYY-MM-DD` start-date input resolves to that calendar date at
midnight; and a `YYYY-MM-DD` string is never a digit string, so it is
never interpreted as a day count. -/
theorem C3_start_date_resolution :
    (∀ (now : Int) (s : String) (n : Nat),
        pyIsDigit (pyStrip s) = true → strToNat (pyStrip s) = n →
        parseStartInput now s = some (now - 86400 * (n : Int)))
    ∧ (∀ (now : Int) (s : String) (y m d : Nat),
        pyStrip s = ymdString y m d → y ≤ 9999 → isValidDate y m d = true →
        parseStartInput now s = some (midnightInstant y m d))
    ∧ (∀ y m d : Nat, pyIsDigit (ymdString y m d) = false) := by
  refine ⟨?_, ?_, pyIsDigit_ymdString⟩
  · intro now s n hd hn
    unfold parseStartInput
    rw [hd, hn]
    simp
  · intro now s y m d hs hy hv
    unfold parseStartInput
    rw [hs, pyIsDigit_ymdString, parsePythonDate_ymdString hy hv]
    simp

/-- Witness for C3 at the inputs `"14"` and `"2024-05-06"`. -/
theorem C3_witness :
    pyIsDigit (pyStrip "14") = true ∧ strToNat (pyStrip "14") = 14
    ∧ parseStartInput 0 "14" = some (0 - 86400 * (14 : Int))
    ∧ pyStrip "2024-05-06" = ymdString 2024 5 6 ∧ isValidDate 2024 5 6 = true
    ∧ parseStartInput 0 "2024-05-06" = some (midnightInstant 2024 5 6) := by
  refine ⟨by decide, by decide, ?_, by decide, by decide, ?_⟩
  · exact C3_start_date_resolution.1 0 "14" 14 (by decide) (by decide)
  · exact C3_start_date_resolution.2.1 0 "2024-05-06" 2024 5 6 (by decide) (by decide) (by decide)

/-- C7: for both prompts, any finite sequence of unparseable inputs
followed by one valid input makes the prompt loop return the value
resolved from the valid input; bad input never escapes the loop. -/
theorem C7_retry_loops :
    (∀ (now v : Int) (bads : List String) (good : String) (rest : List String),
        (∀ b ∈ bads, parseStartInput now b = none) →
        parseStartInput now good = some v →
        getStartDate now (bads ++ good :: rest) = some v)
    ∧ (∀ (now v : Int) (bads : List String) (good : String) (rest : List String),
        (∀ b ∈ bads, parseEndInput now b = none) →
        parseEndInput now good = some v →
        getEndDate now (bads ++ good :: rest) = some v) := by
  constructor
  · intro now v bads good rest hb hg
    induction bads with
    | nil => simp [getStartDate, hg]
    | cons x xs ih =>
      have hx : parseStartInput now x = none := hb x (List.mem_cons_self x xs)
      simp only [List.cons_append, getStartDate, hx]
      exact ih (fun b hbm => hb b (List.mem_cons_of_mem x hbm))
  · intro now v bads good rest hb hg
    induction bads with
    | nil => simp [getEndDate, hg]
    | cons x xs ih =>
      have hx : parseEndInput now x = none := hb x (List.mem_cons_self x xs)
      simp only [List.cons_append, getEndDate, hx]
      exact ih (fun b hbm => hb b (List.mem_cons_of_mem x hbm))

/-- Witness for C7: two bad inputs (`"abc"`, `"2024-13-40"`) then a good
one for the start prompt; one bad input then the empty default for the
end prompt. -/
theorem C7_witness :
    parseStartInput 0 "abc" = none ∧ parseStartInput 0 "2024-13-40" = none
    ∧ getStartDate 0 ["abc", "2024-13-40", "7"] = some (-604800)
    ∧ parseEndInput 5 "abc" = none
    ∧ getEndDate 5 ["abc", ""] = some 5 := by
  refine ⟨by decide, by decide, ?_, by decide, ?_⟩
  · exact C7_retry_loops.1 0 (-604800) ["abc", "2024-13-40"] "7" []
      (by decide) (by decide)
  · exact C7_retry_loops.2 5 5 ["abc"] "" [] (by decide) (by decide)

/-- C8 (amended): empty end-date input resolves to now; a `YYYY-MM-DD`
input resolves to that calendar date at midnight; every accepted input
is either empty or accepted by the code parser
(`strptime("%Y-%m-%d")`, which is lenient about 1-digit month/day). -/
theorem C8_end_date_resolution :
    (∀ (now : Int) (s : String), pyStrip s = "" → parseEndInput now s = some now)
    ∧ (∀ (now : Int) (s : String) (y m d : Nat),
        pyStrip s = ymdString y m d → y ≤ 9999 → isValidDate y m d = true →
        parseEndInput now s = some (midnightInstant y m d))
    ∧ (∀ (now v : Int) (s : String), parseEndInput now s = some v →
        pyStrip s = "" ∨
        ∃ y m d : Nat, parsePythonDate (pyStrip s) = some (y, m, d)
          ∧ v = midnightInstant y m d) := by
  refine ⟨?_, ?_, ?_⟩
  · intro now s hs
    unfold parseEndInput
    rw [hs]
    simp
  · intro now s y m d hs hy hv
    have hne : ymdString y m d ≠ "" := by
      intro hcontra
      have hd := congrArg String.data hcontra
      simp [ymdString, ymdChars, pad4Chars] at hd
    unfold parseEndInput
    rw [hs, if_neg hne, parsePythonDate_ymdString hy hv]
  · intro now v s h
    unfold parseEndInput at h
    by_cases hs : pyStrip s = ""
    · exact Or.inl hs
    · right
      rw [if_neg hs] at h
      cases hp : parsePythonDate (pyStrip s) with
      | none => rw [hp] at h; exact absurd h (by simp)
      | some t =>
        obtain ⟨y, m, d⟩ := t
        rw [hp] at h
        simp at h
        exact ⟨y, m, d, rfl, h.symm⟩

/-- Witness for C8 at the empty input and `"2024-05-06"`. -/
theorem C8_witness :
    pyStrip "" = "" ∧ parseEndInput 7 "" = some 7
    ∧ pyStrip "2024-05-06" = ymdString 2024 5 6 ∧ isValidDate 2024 5 6 = true
    ∧ parseEndInput 7 "2024-05-06" = some (midnightInstant 2024 5 6) := by
  refine ⟨by decide, ?_, by decide, by decide, ?_⟩
  · exact C8_end_date_resolution.1 7 "" (by decide)
  · exact C8_end_date_resolution.2.1 7 "2024-05-06" 2024 5 6 (by decide) (by decide) (by decide)

/-- Counterexample to C8 as stated: the input `"2024-1-5"` is neither
empty nor of the `YYYY-MM-DD` shape, yet the end prompt accepts it
(Python strptime is lenient about 1-digit month and day). -/
theorem C8_counterexample :
    parseEndInput 0 "2024-1-5" = some (midnightInstant 2024 1 5)
    ∧ pyStrip "2024-1-5" ≠ ""
    ∧ specYMDShape (pyStrip "2024-1-5") = false := by
  exact ⟨by decide, by decide, by decide⟩

/-- C5: on a successful issue-tracker response the fetch maps each issue
1:1 to a ticket record with `status = status.name` and
`url = jira_url ++ "/browse/" ++ key`; the record count equals the issue
count. -/
theorem C5_jira_mapping (cfg : Config) (st : Nat) (issues : List JiraIssue)
    (h2 : 200 ≤ st) (h3 : st ≤ 299) :
    fetchJira cfg (.response st (some ⟨some issues⟩)) = (issues.map (ticketOfIssue cfg), [])
    ∧ (fetchJira cfg (.response st (some ⟨some issues⟩))).1.length = issues.length
    ∧ ∀ t ∈ (fetchJira cfg (.response st (some ⟨some issues⟩))).1,
        ∃ iss ∈ issues, t = ticketOfIssue cfg iss
          ∧ t.url = cfg.jira_url ++ "/browse/" ++ iss.key := by
  have hnot : ¬ (400 ≤ st ∧ st ≤ 599) := by omega
  refine ⟨?_, ?_, ?_⟩
  · simp [fetchJira, hnot]
  · simp [fetchJira, hnot]
  · intro t ht
    simp [fetchJira, hnot] at ht
    obtain ⟨iss, hmem, hval⟩ := ht
    exact ⟨iss, hmem, hval.symm, by rw [← hval]; rfl⟩

/-- Witness for C5: a stubbed 200 response with exactly two issues
yields exactly two ticket records with the expected URLs. -/
theorem C5_witness :
    fetchJira cfgAll (.response 200 (some ⟨some [issueA, issueB]⟩)) =
      ([{ key := "PROJ-1", summary := "Fix login", status := "Done",
          url := "https://jira.example.com/browse/PROJ-1" },
        { key := "PROJ-2", summary := "Add tests", status := "Done",
          url := "https://jira.example.com/browse/PROJ-2" }], [])
    ∧ (fetchJira cfgAll (.response 200 (some ⟨some [issueA, issueB]⟩))).1.length = 2 := by
  have h := C5_jira_mapping cfgAll 200 [issueA, issueB] (by decide) (by decide)
  refine ⟨?_, ?_⟩
  · rw [h.1]
    decide
  · rw [h.2.1]
    rfl

/-- C6: on a successful code-host response the fetch maps each item 1:1
to a PR record whose `repo` is the last `/`-separated segment of the
item's repository URL. -/
theorem C6_github_mapping (cfg : Config) (st : Nat) (items : List GithubItem)
    (h2 : 200 ≤ st) (h3 : st ≤ 299) :
    fetchGithub cfg (.response st (some ⟨some items⟩)) = (items.map prOfItem, [])
    ∧ ∀ p ∈ (fetchGithub cfg (.response st (some ⟨some items⟩))).1,
        ∃ it ∈ items, p = prOfItem it
          ∧ p.repo = lastD (pySplit '/' it.repository_url)
          ∧ p.number = it.number ∧ p.title = it.title ∧ p.state = it.state
          ∧ p.url = it.html_url ∧ p.updated = it.updated_at := by
  have hnot : ¬ (400 ≤ st ∧ st ≤ 599) := by omega
  refine ⟨by simp [fetchGithub, hnot], ?_⟩
  intro p hp
  simp [fetchGithub, hnot] at hp
  obtain ⟨it, hmem, hval⟩ := hp
  refine ⟨it, hmem, hval.symm, ?_, ?_, ?_, ?_, ?_, ?_⟩ <;> rw [← hval] <;> rfl

/-- Witness for C6: a stubbed item with
`repository_url = "https://api.github.com/repos/myorg/myrepo"` maps to
`repo = "myrepo"`. -/
theorem C6_witness :
    fetchGithub cfgAll (.response 200 (some ⟨some [itemA]⟩)) =
      ([{ number := 42, title := "Improve CI", repo := "myrepo", state := "closed",
          url := "https://github.com/myorg/myrepo/pull/42",
          updated := "2024-05-06T12:00:00Z" }], [])
    ∧ (prOfItem itemA).repo = "myrepo" := by
  have h := C6_github_mapping cfgAll 200 [itemA] (by decide) (by decide)
  refine ⟨?_, by decide⟩
  rw [h.1]
  decide

/-- C10: a 2xx response whose JSON object lacks the `issues` (resp.
`items`) key makes the fetch return an empty list with no diagnostic:
the lookup defaults to the empty list instead of raising. -/
theorem C10_missing_key_default (cfg : Config) (st : Nat)
    (h2 : 200 ≤ st) (h3 : st ≤ 299) :
    fetchJira cfg (.response st (some ⟨none⟩)) = ([], [])
    ∧ fetchGithub cfg (.response st (some ⟨none⟩)) = ([], []) := by
  have hnot : ¬ (400 ≤ st ∧ st ≤ 599) := by omega
  exact ⟨by simp [fetchJira, hnot], by simp [fetchGithub, hnot]⟩

/-- Witness for C10 at status 200. -/
theorem C10_witness :
    fetchJira cfgAll (.response 200 (some ⟨none⟩)) = ([], [])
    ∧ fetchGithub cfgAll (.response 200 (some ⟨none⟩)) = ([], []) := by
  exact C10_missing_key_default cfgAll 200 (by decide) (by decide)

/-- C4 (amended): a transport error or a 4xx/5xx response makes either
fetch print a diagnostic containing the error and return an empty list,
without propagating; and whatever one fetch's outcome is, the other
fetch's section (diagnostics and entries) still appears in the rendered
report. -/
theorem C4_fetch_failures :
    (∀ (cfg : Config) (e : String),
        fetchJira cfg (.transportError e) = ([], ["❌ Error fetching JIRA tickets: " ++ e]))
    ∧ (∀ (cfg : Config) (st : Nat) (b : Option JiraBody), 400 ≤ st → st ≤ 599 →
        fetchJira cfg (.response st b) =
          ([], ["❌ Error fetching JIRA tickets: " ++ statusErrText st]))
    ∧ (∀ (cfg : Config) (e : String),
        fetchGithub cfg (.transportError e) =
          ([], ["❌ Error fetching GitHub PR reviews: " ++ e]))
    ∧ (∀ (cfg : Config) (st : Nat) (b : Option GithubBody), 400 ≤ st → st ≤ 599 →
        fetchGithub cfg (.response st b) =
          ([], ["❌ Error fetching GitHub PR reviews: " ++ statusErrText st]))
    ∧ (∀ (cfg : Config) (sd ed : Int) (jr : HttpOutcome JiraBody) (gr : HttpOutcome GithubBody),
        List.IsInfix
          (["👀 GITHUB PR REVIEWS", dash60] ++
            (fetchGithub cfg gr).2 ++ prReviewLines (fetchGithub cfg gr).1)
          (printSummary cfg sd ed jr gr))
    ∧ (∀ (cfg : Config) (sd ed : Int) (jr : HttpOutcome JiraBody) (gr : HttpOutcome GithubBody),
        List.IsInfix
          (["✅ COMPLETED JIRA TICKETS", dash60] ++
            (fetchJira cfg jr).2 ++ jiraTicketLines (fetchJira cfg jr).1)
          (printSummary cfg sd ed jr gr)) := by
  refine ⟨fun cfg e => rfl, ?_, fun cfg e => rfl, ?_, ?_, ?_⟩
  · intro cfg st b h4 h5
    simp [fetchJira, show 400 ≤ st ∧ st ≤ 599 from ⟨h4, h5⟩]
  · intro cfg st b h4 h5
    simp [fetchGithub, show 400 ≤ st ∧ st ≤ 599 from ⟨h4, h5⟩]
  · intro cfg sd ed jr gr
    refine ⟨[sep60, "📊 SPRINT SUMMARY",
      "📅 Date Range: " ++ fmtDate sd ++ " to " ++ fmtDate ed,
      sep60, "", "✅ COMPLETED JIRA TICKETS", dash60] ++
      (fetchJira cfg jr).2 ++ jiraTicketLines (fetchJira cfg jr).1 ++ ["", sep60, ""],
      ["", sep60], ?_⟩
    simp [printSummary]
  · intro cfg sd ed jr gr
    refine ⟨[sep60, "📊 SPRINT SUMMARY",
      "📅 Date Range: " ++ fmtDate sd ++ " to " ++ fmtDate ed, sep60, ""],
      ["", sep60, "", "👀 GITHUB PR REVIEWS", dash60] ++
        (fetchGithub cfg gr).2 ++ prReviewLines (fetchGithub cfg gr).1 ++ ["", sep60], ?_⟩
    simp [printSummary]

/-- Witness for C4 at a transport error and a 500 response. -/
theorem C4_witness :
    fetchJira cfgAll (.transportError "Connection refused") =
      ([], ["❌ Error fetching JIRA tickets: Connection refused"])
    ∧ fetchGithub cfgAll (.response 500 none) =
      ([], ["❌ Error fetching GitHub PR reviews: " ++ statusErrText 500])
    ∧ List.IsInfix
        (["👀 GITHUB PR REVIEWS", dash60] ++
          (fetchGithub cfgAll emptyGithubResp).2 ++
          prReviewLines (fetchGithub cfgAll emptyGithubResp).1)
        (printSummary cfgAll 0 0 (.transportError "Connection refused") emptyGithubResp) := by
  exact ⟨C4_fetch_failures.1 cfgAll "Connection refused",
    C4_fetch_failures.2.2.2.1 cfgAll 500 none (by decide) (by decide),
    C4_fetch_failures.2.2.2.2.1 cfgAll 0 0 (.transportError "Connection refused") emptyGithubResp⟩

/-- Counterexample to C4 as stated: a 304 (non-2xx, non-4xx/5xx)
response whose body contains one issue is not treated as an error — the
fetch returns the mapped ticket and prints no diagnostic. -/
theorem C4_counterexample :
    (fetchJira cfgAll (.response 304 (some ⟨some [issueA]⟩))).1 =
      [ticketOfIssue cfgAll issueA]
    ∧ (fetchJira cfgAll (.response 304 (some ⟨some [issueA]⟩))).2 = []
    ∧ (304 < 200 ∨ 299 < 304) := by
  exact ⟨by decide, by decide, by decide⟩

/-- C9: an empty fetched ticket list renders the literal
"No completed tickets found in date range." line in full mode, and an
empty fetched PR list renders the literal "None" under the
"GitHub PR Reviews:" label in concise mode. -/
theorem C9_empty_renders (cfg : Config) (sd ed : Int)
    (jr : HttpOutcome JiraBody) (gr : HttpOutcome GithubBody) :
    ((fetchJira cfg jr).1 = [] →
      "No completed tickets found in date range." ∈ printSummary cfg sd ed jr gr)
    ∧ ((fetchGithub cfg gr).1 = [] → "None" ∈ printConcise cfg jr gr)
    ∧ (fetchGithub cfg gr = ([], []) →
      List.IsInfix ["GitHub PR Reviews:", "None"] (printConcise cfg jr gr)) := by
  refine ⟨?_, ?_, ?_⟩
  · intro h
    simp [printSummary, jiraTicketLines, h]
  · intro h
    simp [printConcise, h]
  · intro h
    refine ⟨["Completed JIRA Tickets:"] ++ (fetchJira cfg jr).2 ++
      (if (fetchJira cfg jr).1.isEmpty then ["None"]
       else (fetchJira cfg jr).1.map
         (fun t => t.key ++ ": " ++ t.summary ++ " - " ++ t.url)) ++ [""],
      [], ?_⟩
    simp [printConcise, h]

/-- Witness for C9 at empty stubbed responses. -/
theorem C9_witness :
    (fetchJira cfgAll emptyJiraResp).1 = []
    ∧ "No completed tickets found in date range." ∈
        printSummary cfgAll 0 0 emptyJiraResp emptyGithubResp
    ∧ (fetchGithub cfgAll emptyGithubResp).1 = []
    ∧ "None" ∈ printConcise cfgAll emptyJiraResp emptyGithubResp
    ∧ List.IsInfix ["GitHub PR Reviews:", "None"]
        (printConcise cfgAll emptyJiraResp emptyGithubResp) := by
  have h := C9_empty_renders cfgAll 0 0 emptyJiraResp emptyGithubResp
  exact ⟨by decide, h.1 (by decide), by decide, h.2.1 (by decide), h.2.2 (by decide)⟩

/-- C1: if any of the five configuration values is missing or empty in
the constructed configuration the run exits with code 1 after printing a
line naming every missing variable; if none is missing the run exits
with code 0, whatever the two fetch outcomes are. -/
theorem C1_config_validation (i : RunInput) (r : RunResult)
    (h : runMain i = some r) :
    (missingVars (mkConfig i.env) ≠ [] →
      r.exitCode = 1 ∧
      ∀ v ∈ missingVars (mkConfig i.env), ("   - " ++ v) ∈ r.lines)
    ∧ (missingVars (mkConfig i.env) = [] → r.exitCode = 0) := by
  rcases hs : getStartDate i.now i.startInputs with _ | sd
  · rw [runMain, hs] at h
    exact absurd h (by simp)
  · rcases he : getEndDate i.now i.endInputs with _ | ed
    · rw [runMain, hs, he] at h
      exact absurd h (by simp)
    · rw [runMain, hs, he] at h
      dsimp only at h
      by_cases hm : (missingVars (mkConfig i.env)).isEmpty
      · rw [if_pos hm] at h
        have hr := (Option.some.injEq _ _).mp h
        constructor
        · intro hne
          exact absurd (List.isEmpty_iff.mp hm) hne
        · intro _
          rw [← hr]
      · rw [if_neg hm] at h
        have hr := (Option.some.injEq _ _).mp h
        constructor
        · intro _
          refine ⟨by rw [← hr], ?_⟩
          intro v hv
          rw [← hr]
          simp only [missingReportLines, List.mem_append, List.mem_map, List.mem_cons]
          exact Or.inl (Or.inr ⟨v, hv, rfl⟩)
        · intro hnil
          exact absurd (List.isEmpty_iff.mpr hnil) hm

/-- Witness for C1: a run with `JIRA_EMAIL` unset and `GITHUB_TOKEN`
empty exits 1 and names both; a run with all five set exits 0 even
though the fetches are stubbed. -/
theorem C1_witness :
    missingVars (mkConfig envMissingTwo) = ["JIRA_EMAIL", "GITHUB_TOKEN"]
    ∧ runMain runMissingTwo = some missingTwoResult
    ∧ missingTwoResult.exitCode = 1
    ∧ ("   - JIRA_EMAIL") ∈ missingTwoResult.lines
    ∧ ("   - GITHUB_TOKEN") ∈ missingTwoResult.lines
    ∧ runMain runAllOk = some allOkResult
    ∧ allOkResult.exitCode = 0 := by
  have h1 := C1_config_validation runMissingTwo missingTwoResult (by decide)
  have h2 := C1_config_validation runAllOk allOkResult (by decide)
  obtain ⟨hc1, hmem⟩ := h1.1 (by decide)
  exact ⟨by decide, by decide, hc1, hmem "JIRA_EMAIL" (by decide),
    hmem "GITHUB_TOKEN" (by decide), by decide, h2.2 (by decide)⟩

/-- C2 (amended): every completed run's I/O trace is either
prompt-start, prompt-end, validate (missing configuration, exit path) or
prompt-start, prompt-end, validate, JIRA fetch, GitHub fetch — so
validation happens after both date prompts but before any network
call. -/
theorem C2_pipeline_order (i : RunInput) (r : RunResult)
    (h : runMain i = some r) :
    r.trace = [Event.promptStart, Event.promptEnd, Event.validate]
    ∨ r.trace = [Event.promptStart, Event.promptEnd, Event.validate,
        Event.httpJira, Event.httpGithub] := by
  rcases hs : getStartDate i.now i.startInputs with _ | sd
  · rw [runMain, hs] at h
    exact absurd h (by simp)
  · rcases he : getEndDate i.now i.endInputs with _ | ed
    · rw [runMain, hs, he] at h
      exact absurd h (by simp)
    · rw [runMain, hs, he] at h
      dsimp only at h
      by_cases hm : (missingVars (mkConfig i.env)).isEmpty
      · rw [if_pos hm] at h
        right
        rw [← (Option.some.injEq _ _).mp h]
      · rw [if_neg hm] at h
        left
        rw [← (Option.some.injEq _ _).mp h]

/-- Witness for C2 (amended) at the all-valid concrete run. -/
theorem C2_witness :
    runMain runAllOk = some allOkResult
    ∧ (allOkResult.trace = [Event.promptStart, Event.promptEnd, Event.validate]
       ∨ allOkResult.trace = [Event.promptStart, Event.promptEnd, Event.validate,
           Event.httpJira, Event.httpGithub]) := by
  exact ⟨by decide, C2_pipeline_order runAllOk allOkResult (by decide)⟩

/-- Counterexample to C2 as stated: in a concrete complete run the first
traced action is the start-date prompt, and credential validation occurs
only later — validation does not precede the prompts. -/
theorem C2_counterexample :
    (runMain runAllOk).map RunResult.trace =
      some [Event.promptStart, Event.promptEnd, Event.validate,
        Event.httpJira, Event.httpGithub]
    ∧ [Event.promptStart, Event.promptEnd, Event.validate,
        Event.httpJira, Event.httpGithub].indexOf Event.promptStart = 0
    ∧ [Event.promptStart, Event.promptEnd, Event.validate,
        Event.httpJira, Event.httpGithub].indexOf Event.validate = 2
    ∧ ¬ ([Event.promptStart, Event.promptEnd, Event.validate,
        Event.httpJira, Event.httpGithub].indexOf Event.validate <
        [Event.promptStart, Event.promptEnd, Event.validate,
          Event.httpJira, Event.httpGithub].indexOf Event.promptStart) := by
  exact ⟨by decide, by decide, by decide, by decide⟩

end SprintSummary
